import Mathlib

/-!
Verification of the feedback-meeting-processor server (src/server/main.py).

Shallow embedding conventions:
  * Python JSON values are the inductive `Json` (numbers as `Int`; no claim
    involves floating point).
  * A Python dict holding JSON data is `PyDict`, an association list; key
    lookup `d.get(k)` is `dictGet d k`, and `d.get(k, dflt)` is
    `(dictGet d k).getD dflt`.
  * Python exceptions are `Except String` with the exception text as payload
    (texts are representative; no claim depends on exact exception wording).
  * Python f-string interpolation `{v}` of a JSON value renders `str(v)`,
    embedded as `pyShow`.
-/

/-- A JSON value as Python's json module produces it (numbers restricted to
integers; the repository's data carries no fractional numbers). -/
inductive Json where
  | null : Json
  | bool : Bool → Json
  | num : Int → Json
  | str : String → Json
  | arr : List Json → Json
  | obj : List (String × Json) → Json

/-- A Python dict holding JSON values: an association list of string keys. -/
abbrev PyDict := List (String × Json)

/-- Python `d.get(k)`: the value at the first matching key, else `None`. -/
def dictGet (kvs : PyDict) (k : String) : Option Json :=
  (kvs.find? (fun kv => kv.1 == k)).map (fun kv => kv.2)

mutual

/-- Python `repr` of a JSON value (string quoting approximated with plain
apostrophes; no claim depends on repr of nested containers). -/
def pyRepr : Json → String
  | Json.null => "None"
  | Json.bool true => "True"
  | Json.bool false => "False"
  | Json.num n => toString n
  | Json.str s => "\x27" ++ s ++ "\x27"
  | Json.arr xs => "[" ++ pyReprItems xs ++ "]"
  | Json.obj kvs => "\x7b" ++ pyReprPairs kvs ++ "\x7d"

/-- Comma-separated `repr` of list elements. -/
def pyReprItems : List Json → String
  | [] => ""
  | [x] => pyRepr x
  | x :: y :: xs => pyRepr x ++ ", " ++ pyReprItems (y :: xs)

/-- Comma-separated `repr` of dict entries. -/
def pyReprPairs : List (String × Json) → String
  | [] => ""
  | [kv] => "\x27" ++ kv.1 ++ "\x27: " ++ pyRepr kv.2
  | kv :: kv2 :: kvs =>
      "\x27" ++ kv.1 ++ "\x27: " ++ pyRepr kv.2 ++ ", " ++ pyReprPairs (kv2 :: kvs)

end

/-- Python `str` of a JSON value, as an f-string renders it. -/
def pyShow : Json → String
  | Json.str s => s
  | j => pyRepr j

/-- `str(v)` for a `d.get(k)` result that may be `None`. -/
def pyShowOpt : Option Json → String
  | some j => pyShow j
  | none => "None"

/-- Whether a JSON value equals (by Python `==`) the given Python string. -/
def Json.isStrEq : Json → String → Bool
  | Json.str s, t => s == t
  | _, _ => false

/- ============================================
   Constants (main.py lines 50-61)
   ============================================ -/

/-- `CATEGORY_EMOJIS` (main.py lines 50-55). -/
def CATEGORY_EMOJIS : List (String × String) :=
  [("UI", "🎨"), ("UX", "🧠"), ("Copy", "✍️"), ("Tech", "⚙️")]

/-- One value of `PRIORITY_CONFIG`. -/
structure PriorityCfg where
  emoji : String
  label : String
  order : Nat

/-- `PRIORITY_CONFIG` (main.py lines 57-61). -/
def PRIORITY_CONFIG : List (String × PriorityCfg) :=
  [("critical", ⟨"🔴", "Crítico", 0⟩),
   ("improvement", ⟨"🟡", "Mejora", 1⟩),
   ("nice_to_have", ⟨"🟢", "Nice-to-have", 2⟩)]

/- ============================================
   HTML widget generator (main.py lines 106-205)
   ============================================ -/

/-- `item.get("priority", "nice_to_have")` (main.py line 112 and line 367):
the effective priority of a record, defaulting when the field is absent. -/
def effPriority (item : PyDict) : Json :=
  (dictGet item "priority").getD (Json.str "nice_to_have")

/-- The `grouped` dict of `generate_html_widget` (main.py line 110): one
bucket per recognized priority key. -/
structure Grouped where
  critical : List PyDict
  improvement : List PyDict
  nice_to_have : List PyDict

/-- One iteration of the grouping loop (main.py lines 111-114) on the
non-raising path: append the record to the bucket its effective priority
names, drop it when no bucket key matches (`if priority in grouped`; a
hashable non-string key tests unequal to every string key). The membership
test hashes `priority` first, so an unhashable value (list/dict) raises
`TypeError` instead of being dropped — `groupStepE` carries that error
path. -/
def groupStep (grouped : Grouped) (item : PyDict) : Grouped :=
  let priority := effPriority item
  if priority.isStrEq "critical" then
    { grouped with critical := grouped.critical ++ [item] }
  else if priority.isStrEq "improvement" then
    { grouped with improvement := grouped.improvement ++ [item] }
  else if priority.isStrEq "nice_to_have" then
    { grouped with nice_to_have := grouped.nice_to_have ++ [item] }
  else
    grouped

/-- The grouping loop of `generate_html_widget` (main.py lines 110-114). -/
def groupItems (feedback_items : List PyDict) : Grouped :=
  feedback_items.foldl groupStep ⟨[], [], []⟩

/-- `total = sum(counts.values())` where `counts` maps each priority to its
bucket size (main.py lines 117-118). -/
def widgetTotal (feedback_items : List PyDict) : Nat :=
  let grouped := groupItems feedback_items
  grouped.critical.length + grouped.improvement.length + grouped.nice_to_have.length

/-- The value interpolated at `{item.get("item", "")}` (main.py line 135). -/
def itemText (item : PyDict) : String :=
  pyShow ((dictGet item "item").getD (Json.str ""))

/-- The value interpolated at `{item.get("original_quote", "")}` (main.py
line 136). -/
def quoteText (item : PyDict) : String :=
  pyShow ((dictGet item "original_quote").getD (Json.str ""))

/-- `category = item.get("category", "UI")` (main.py line 127). -/
def categoryVal (item : PyDict) : Json :=
  (dictGet item "category").getD (Json.str "UI")

/-- The value interpolated at `{category}` (main.py line 133). -/
def categoryText (item : PyDict) : String :=
  pyShow (categoryVal item)

/-- `category_emoji = CATEGORY_EMOJIS.get(category, "📌")` (main.py line
128) on the non-raising path; the dict's keys are Python strings, so a
hashable non-string category never matches and falls back to 📌, while an
unhashable category raises `TypeError` (`categoryEmojiE` below). -/
def categoryEmoji (item : PyDict) : String :=
  match categoryVal item with
  | Json.str s =>
      (((CATEGORY_EMOJIS.find? (fun kv => kv.1 == s)).map (fun kv => kv.2)).getD "📌")
  | _ => "📌"

/-- The card emitted for one record by `render_items` (main.py lines
129-138). -/
def render_card (item : PyDict) : String :=
  "\n                <div style=\"background: #f8fafc; border-radius: 8px; padding: 12px; margin-bottom: 8px; border-left: 3px solid #e2e8f0;\">\n" ++
  "                    <div style=\"display: flex; align-items: center; gap: 8px; margin-bottom: 6px;\">\n" ++
  "                        <span style=\"font-size: 14px;\">" ++ categoryEmoji item ++ "</span>\n" ++
  "                        <span style=\"font-size: 11px; font-weight: 600; color: #64748b; text-transform: uppercase; letter-spacing: 0.5px;\">" ++ categoryText item ++ "</span>\n" ++
  "                    </div>\n" ++
  "                    <p style=\"margin: 0 0 8px 0; color: #1e293b; font-size: 14px; line-height: 1.5;\">" ++ itemText item ++ "</p>\n" ++
  "                    <p style=\"margin: 0; font-size: 12px; color: #94a3b8; font-style: italic;\">\"" ++ quoteText item ++ "\"</p>\n" ++
  "                </div>\n            "

/-- `render_items` (main.py lines 121-139): the placeholder for an empty
bucket, else the concatenated cards. -/
def render_items (items : List PyDict) : String :=
  if items.isEmpty then
    "<p style=\"color: #6b7280; font-style: italic; margin: 0;\">Sin items en esta categoría</p>"
  else
    String.join (items.map render_card)

/-- `grouped[priority_key]` for the three keys of the section loop (main.py
line 145). -/
def bucketOf (grouped : Grouped) : String → List PyDict
  | "critical" => grouped.critical
  | "improvement" => grouped.improvement
  | "nice_to_have" => grouped.nice_to_have
  | _ => []

/-- `PRIORITY_CONFIG[priority_key]` (main.py line 144); the loop only uses
the three present keys, so the fallback is unreachable. -/
def priorityCfgOf (priority_key : String) : PriorityCfg :=
  (((PRIORITY_CONFIG.find? (fun kv => kv.1 == priority_key)).map (fun kv => kv.2)).getD ⟨"", "", 0⟩)

/-- One section of the widget (main.py lines 142-161). -/
def priority_section (grouped : Grouped) (priority_key : String) : String :=
  let config := priorityCfgOf priority_key
  let items := bucketOf grouped priority_key
  let count := items.length
  "\n            <div style=\"margin-bottom: 20px;\">\n" ++
  "                <div style=\"display: flex; align-items: center; justify-content: space-between; margin-bottom: 12px; padding-bottom: 8px; border-bottom: 1px solid #e2e8f0;\">\n" ++
  "                    <div style=\"display: flex; align-items: center; gap: 8px;\">\n" ++
  "                        <span style=\"font-size: 18px;\">" ++ config.emoji ++ "</span>\n" ++
  "                        <h3 style=\"margin: 0; font-size: 16px; font-weight: 600; color: #334155;\">" ++ config.label ++ "</h3>\n" ++
  "                    </div>\n" ++
  "                    <span style=\"background: #e2e8f0; color: #475569; font-size: 12px; font-weight: 600; padding: 2px 8px; border-radius: 12px;\">" ++ toString count ++ "</span>\n" ++
  "                </div>\n" ++
  "                <div style=\"padding-left: 4px;\">\n" ++
  "                    " ++ render_items items ++ "\n" ++
  "                </div>\n" ++
  "            </div>\n        "

/-- `generate_html_widget` (main.py lines 106-205): the full document on
the non-raising path; `generate_html_widgetE` below is the complete
embedding with Python's `TypeError` paths, of which this is the success
value. -/
def generate_html_widget (feedback_items : List PyDict) : String :=
  let grouped := groupItems feedback_items
  let total := widgetTotal feedback_items
  let sections := String.join (["critical", "improvement", "nice_to_have"].map (priority_section grouped))
  "<!DOCTYPE html>\n<html lang=\"es\">\n<head>\n    <meta charset=\"UTF-8\">\n" ++
  "    <meta name=\"viewport\" content=\"width=device-width, initial-scale=1.0\">\n" ++
  "    <title>Feedback de Reunión</title>\n</head>\n" ++
  "<body style=\"margin: 0; padding: 16px; font-family: -apple-system, BlinkMacSystemFont, \x27Segoe UI\x27, Roboto, \x27Helvetica Neue\x27, Arial, sans-serif; background: #ffffff;\">\n" ++
  "    <div style=\"max-width: 600px; margin: 0 auto;\">\n        <!-- Header -->\n" ++
  "        <div style=\"background: linear-gradient(135deg, #667eea 0%, #764ba2 100%); border-radius: 12px; padding: 20px; margin-bottom: 20px; color: white;\">\n" ++
  "            <h1 style=\"margin: 0 0 8px 0; font-size: 20px; font-weight: 700;\">📋 Resumen de Feedback</h1>\n" ++
  "            <p style=\"margin: 0; font-size: 14px; opacity: 0.9;\">Total de items procesados: <strong>" ++ toString total ++ "</strong></p>\n" ++
  "        </div>\n        \n        <!-- Summary Badges -->\n" ++
  "        <div style=\"display: flex; gap: 12px; margin-bottom: 20px; flex-wrap: wrap;\">\n" ++
  "            <div style=\"flex: 1; min-width: 100px; background: #fef2f2; border-radius: 8px; padding: 12px; text-align: center;\">\n" ++
  "                <div style=\"font-size: 24px; font-weight: 700; color: #dc2626;\">" ++ toString grouped.critical.length ++ "</div>\n" ++
  "                <div style=\"font-size: 11px; color: #991b1b; text-transform: uppercase; letter-spacing: 0.5px;\">Críticos</div>\n" ++
  "            </div>\n" ++
  "            <div style=\"flex: 1; min-width: 100px; background: #fefce8; border-radius: 8px; padding: 12px; text-align: center;\">\n" ++
  "                <div style=\"font-size: 24px; font-weight: 700; color: #ca8a04;\">" ++ toString grouped.improvement.length ++ "</div>\n" ++
  "                <div style=\"font-size: 11px; color: #854d0e; text-transform: uppercase; letter-spacing: 0.5px;\">Mejoras</div>\n" ++
  "            </div>\n" ++
  "            <div style=\"flex: 1; min-width: 100px; background: #f0fdf4; border-radius: 8px; padding: 12px; text-align: center;\">\n" ++
  "                <div style=\"font-size: 24px; font-weight: 700; color: #16a34a;\">" ++ toString grouped.nice_to_have.length ++ "</div>\n" ++
  "                <div style=\"font-size: 11px; color: #166534; text-transform: uppercase; letter-spacing: 0.5px;\">Nice-to-have</div>\n" ++
  "            </div>\n        </div>\n        \n        <!-- Priority Sections -->\n        " ++
  sections ++
  "\n        \n        <!-- Footer -->\n" ++
  "        <div style=\"text-align: center; padding-top: 16px; border-top: 1px solid #e2e8f0;\">\n" ++
  "            <p style=\"margin: 0; font-size: 11px; color: #94a3b8;\">Generado por Feedback Meeting Processor MCP</p>\n" ++
  "        </div>\n    </div>\n</body>\n</html>"

/- ============================================
   Error paths of the widget generator: Python raises TypeError when an
   unhashable value (list/dict) is hashed by `in` or `dict.get`
   ============================================ -/

/-- Python hashability of a JSON value: lists and dicts are unhashable, so
hashing one (dict membership, `dict.get` key) raises `TypeError`. -/
def pyHashable : Json → Bool
  | Json.arr _ => false
  | Json.obj _ => false
  | _ => true

/-- `groupStep` with Python's error path restored: `priority in grouped`
(main.py line 113) hashes the key, so a list or dict priority raises
`TypeError` instead of the record being dropped. -/
def groupStepE (grouped : Grouped) (item : PyDict) : Except String Grouped :=
  if pyHashable (effPriority item) then Except.ok (groupStep grouped item)
  else Except.error "TypeError: unhashable type"

/-- The grouping loop with the error path: raises at the first record whose
priority value is unhashable. -/
def groupItemsE (feedback_items : List PyDict) : Except String Grouped :=
  feedback_items.foldlM groupStepE ⟨[], [], []⟩

/-- `categoryEmoji` with Python's error path restored:
`CATEGORY_EMOJIS.get(category, "📌")` (main.py line 128) hashes `category`,
so a list or dict value raises `TypeError` instead of falling back to 📌. -/
def categoryEmojiE (item : PyDict) : Except String String :=
  if pyHashable (categoryVal item) then Except.ok (categoryEmoji item)
  else Except.error "TypeError: unhashable type"

/-- One card with the error path: the emoji lookup is the only raising step
of the card body. -/
def render_cardE (item : PyDict) : Except String String :=
  if pyHashable (categoryVal item) then Except.ok (render_card item)
  else Except.error "TypeError: unhashable type"

/-- `render_items` with the error path: cards are emitted in input order
and the first unhashable category raises. -/
def render_itemsE (items : List PyDict) : Except String String :=
  if items.isEmpty then
    Except.ok "<p style=\"color: #6b7280; font-style: italic; margin: 0;\">Sin items en esta categoría</p>"
  else
    (items.mapM render_cardE).map String.join

/-- `generate_html_widget` with Python's error paths restored, in source
order: the grouping loop runs first (main.py lines 110-114, raising at the
first unhashable priority), then the three sections render their buckets in
the fixed order (raising at the first unhashable category); when nothing
raises, the value is the success-path document. -/
def generate_html_widgetE (feedback_items : List PyDict) : Except String String :=
  match groupItemsE feedback_items with
  | Except.error e => Except.error e
  | Except.ok grouped =>
    match render_itemsE grouped.critical with
    | Except.error e => Except.error e
    | Except.ok _ =>
      match render_itemsE grouped.improvement with
      | Except.error e => Except.error e
      | Except.ok _ =>
        match render_itemsE grouped.nice_to_have with
        | Except.error e => Except.error e
        | Except.ok _ => Except.ok (generate_html_widget feedback_items)

/- ============================================
   REST data models and endpoint (main.py lines 31-38, 335-378)
   ============================================ -/

/-- The closed `category` enumeration of `FeedbackItem` (main.py line 33). -/
inductive Category where
  | UI
  | UX
  | Copy
  | Tech

/-- The string a `Category` literal denotes. -/
def Category.toStr : Category → String
  | Category.UI => "UI"
  | Category.UX => "UX"
  | Category.Copy => "Copy"
  | Category.Tech => "Tech"

/-- The closed `priority` enumeration of `FeedbackItem` (main.py line 34). -/
inductive Priority where
  | critical
  | improvement
  | nice_to_have

/-- The string a `Priority` literal denotes. -/
def Priority.toStr : Priority → String
  | Priority.critical => "critical"
  | Priority.improvement => "improvement"
  | Priority.nice_to_have => "nice_to_have"

/-- `FeedbackItem` (main.py lines 31-35): a record that passed the REST
request model's closed-enumeration validation. -/
structure FeedbackItem where
  item : String
  category : Category
  priority : Priority
  original_quote : String

/-- `item.dict()` (main.py line 361): the validated record as a plain dict. -/
def FeedbackItem.toDict (x : FeedbackItem) : PyDict :=
  [("item", Json.str x.item),
   ("category", Json.str x.category.toStr),
   ("priority", Json.str x.priority.toStr),
   ("original_quote", Json.str x.original_quote)]

/-- The `counts` dict of `process_feedback` (main.py line 365). -/
structure PriorityCounts where
  critical : Nat
  improvement : Nat
  nice_to_have : Nat

/-- One iteration of the REST counting loop (main.py lines 366-369) on the
non-raising path: increment the counter the effective priority names, skip
the record when no counter key matches (`if priority in counts`). As in the
grouping loop, an unhashable priority would raise `TypeError`
(`countStepE`); the REST path only receives validated string priorities, so
that path is unreachable there. -/
def countStep (counts : PriorityCounts) (item : PyDict) : PriorityCounts :=
  let priority := effPriority item
  if priority.isStrEq "critical" then
    { counts with critical := counts.critical + 1 }
  else if priority.isStrEq "improvement" then
    { counts with improvement := counts.improvement + 1 }
  else if priority.isStrEq "nice_to_have" then
    { counts with nice_to_have := counts.nice_to_have + 1 }
  else
    counts

/-- `countStep` with the error path of `priority in counts` (main.py line
368): unreachable on the REST path, whose items passed enum validation. -/
def countStepE (counts : PriorityCounts) (item : PyDict) : Except String PriorityCounts :=
  if pyHashable (effPriority item) then Except.ok (countStep counts item)
  else Except.error "TypeError: unhashable type"

/-- The REST counting loop of `process_feedback` (main.py lines 365-369). -/
def restCounts (feedback_items : List PyDict) : PriorityCounts :=
  feedback_items.foldl countStep ⟨0, 0, 0⟩

/-- `FeedbackResponse` (main.py lines 339-346). -/
structure FeedbackResponse where
  success : Bool
  total_items : Nat
  critical_count : Nat
  improvement_count : Nat
  nice_to_have_count : Nat
  html_widget : String

/-- `process_feedback` (main.py lines 352-378): the REST handler on a
request body that passed validation. -/
def process_feedback (request_items : List FeedbackItem) : FeedbackResponse :=
  let feedback_items := request_items.map FeedbackItem.toDict
  let html_widget := generate_html_widget feedback_items
  let counts := restCounts feedback_items
  { success := true,
    total_items := feedback_items.length,
    critical_count := counts.critical,
    improvement_count := counts.improvement,
    nice_to_have_count := counts.nice_to_have,
    html_widget := html_widget }

/- ============================================
   Tool catalog (main.py lines 63-100) and its declared contract
   ============================================ -/

/-- `TOOL_DEFINITION` (main.py lines 63-100), transcribed as a JSON value. -/
def TOOL_DEFINITION : Json :=
  Json.obj
    [("name", Json.str "process_meeting_feedback"),
     ("description", Json.str "Procesa items de feedback de reuniones y los muestra agrupados por prioridad con categorías visuales"),
     ("inputSchema", Json.obj
       [("type", Json.str "object"),
        ("properties", Json.obj
          [("feedback_items", Json.obj
            [("type", Json.str "array"),
             ("description", Json.str "Lista de items de feedback extraídos de la transcripción"),
             ("items", Json.obj
               [("type", Json.str "object"),
                ("properties", Json.obj
                  [("item", Json.obj
                     [("type", Json.str "string"),
                      ("description", Json.str "Descripción del punto de feedback")]),
                   ("category", Json.obj
                     [("type", Json.str "string"),
                      ("enum", Json.arr [Json.str "UI", Json.str "UX", Json.str "Copy", Json.str "Tech"]),
                      ("description", Json.str "Categoría del feedback")]),
                   ("priority", Json.obj
                     [("type", Json.str "string"),
                      ("enum", Json.arr [Json.str "critical", Json.str "improvement", Json.str "nice_to_have"]),
                      ("description", Json.str "Nivel de prioridad")]),
                   ("original_quote", Json.obj
                     [("type", Json.str "string"),
                      ("description", Json.str "Frase original de donde se extrae el feedback")])]),
                ("required", Json.arr [Json.str "item", Json.str "category", Json.str "priority", Json.str "original_quote"])])])]),
        ("required", Json.arr [Json.str "feedback_items"])])]

/-- Key lookup inside a JSON object value (`none` off objects). -/
def jGet (j : Json) (k : String) : Option Json :=
  match j with
  | Json.obj kvs => dictGet kvs k
  | _ => none

/-- Follow a key path from a JSON value (`null` when a step is missing). -/
def jPath (j : Json) : List String → Json
  | [] => j
  | k :: ks => jPath ((jGet j k).getD Json.null) ks

/-- The four names `TOOL_DEFINITION`'s item schema marks `required`. -/
def requiredItemFields : List String :=
  ["item", "category", "priority", "original_quote"]

/-- The `category` enumeration `TOOL_DEFINITION` declares. -/
def categoryEnum : List String := ["UI", "UX", "Copy", "Tech"]

/-- The `priority` enumeration `TOOL_DEFINITION` declares. -/
def priorityEnum : List String := ["critical", "improvement", "nice_to_have"]

/-- `{"type": "string", "enum": allowed}` as a JSON Schema check. -/
def isStrIn (v : Json) (allowed : List String) : Bool :=
  match v with
  | Json.str s => allowed.contains s
  | _ => false

/-- `{"type": "string"}` as a JSON Schema check. -/
def isStrJson : Json → Bool
  | Json.str _ => true
  | _ => false

/-- The constraint the item schema's `properties` put on one present field
(fields outside the four are unconstrained: the schema sets no
`additionalProperties`). -/
def itemFieldOk (k : String) (v : Json) : Bool :=
  if k == "item" then isStrJson v
  else if k == "category" then isStrIn v categoryEnum
  else if k == "priority" then isStrIn v priorityEnum
  else if k == "original_quote" then isStrJson v
  else true

/-- Validation semantics of `TOOL_DEFINITION`'s item schema (main.py lines
72-95), compiled clause by clause: the value must be an object, the four
`required` fields must be present, and every present field must satisfy its
`properties` entry. -/
def itemSchemaOk : Json → Bool
  | Json.obj kvs =>
      requiredItemFields.all (fun k => (dictGet kvs k).isSome)
        && kvs.all (fun kv => itemFieldOk kv.1 kv.2)
  | _ => false

/-- Validation semantics of `TOOL_DEFINITION`'s `inputSchema` (main.py lines
66-99), compiled clause by clause: an object whose required `feedback_items`
field is an array each of whose elements satisfies the item schema. The
schema states no `minItems`, so the empty array passes. -/
def inputSchemaOk : Json → Bool
  | Json.obj kvs =>
      match dictGet kvs "feedback_items" with
      | some (Json.arr xs) => xs.all itemSchemaOk
      | some _ => false
      | none => false
  | _ => false

/- ============================================
   MCP endpoint handlers (main.py lines 211-265)
   ============================================ -/

/-- `handle_tools_list` (main.py lines 211-215). -/
def handle_tools_list : Json :=
  Json.obj [("tools", Json.arr [TOOL_DEFINITION])]

/-- The success envelope `handle_tools_call` builds around the rendered
widget (main.py lines 235-244). -/
def toolSuccessResult (html_widget : String) : Json :=
  Json.obj
    [("content", Json.arr
      [Json.obj
        [("type", Json.str "resource"),
         ("resource", Json.obj
           [("uri", Json.str "feedback://widget"),
            ("mimeType", Json.str "text/html+skybridge"),
            ("text", Json.str html_widget)])]])]

/-- A tool-level error result (main.py lines 223-229 and 246-252). -/
def toolTextError (text : String) : Json :=
  Json.obj
    [("isError", Json.bool true),
     ("content", Json.arr
       [Json.obj [("type", Json.str "text"), ("text", Json.str text)]])]

/-- `tool_name = params.get("name")` (main.py line 219). -/
def toolNameOf (params : PyDict) : Option Json :=
  dictGet params "name"

/-- The test `tool_name != "process_meeting_feedback"` negated (main.py line
222): only the matching JSON string passes. -/
def isKnownTool : Option Json → Bool
  | some (Json.str s) => s == "process_meeting_feedback"
  | _ => false

/-- Python `x.get(key, dflt)` on an arbitrary JSON value: raises
`AttributeError` off dicts. -/
def pyDictGetOr (j : Json) (key : String) (dflt : Json) : Except String Json :=
  match j with
  | Json.obj kvs => Except.ok ((dictGet kvs key).getD dflt)
  | _ => Except.error "AttributeError: object has no attribute get"

/-- Python iteration over the `feedback_items` value inside
`generate_html_widget`'s loop: lists yield their elements; empty strings and
empty dicts yield nothing; non-empty ones yield non-dict elements whose
`.get` raises; other values are not iterable. -/
def iterateItems : Json → Except String (List Json)
  | Json.arr xs => Except.ok xs
  | Json.str s =>
      if s.isEmpty then Except.ok []
      else Except.error "AttributeError: object has no attribute get"
  | Json.obj kvs =>
      if kvs.isEmpty then Except.ok []
      else Except.error "AttributeError: object has no attribute get"
  | _ => Except.error "TypeError: object is not iterable"

/-- Each iterated element must be a dict for `item.get` to succeed. -/
def asPyDict : Json → Except String PyDict
  | Json.obj kvs => Except.ok kvs
  | _ => Except.error "AttributeError: object has no attribute get"

/-- The records `generate_html_widget` sees when the JSON-RPC path hands it
an arbitrary JSON value, or the exception that raises. -/
def recordsOfJson (j : Json) : Except String (List PyDict) := do
  let xs ← iterateItems j
  xs.mapM asPyDict

/-- Rendering as the JSON-RPC path runs it (main.py line 233 with line
106): iteration/record exceptions first, then the widget generator with its
own `TypeError` paths; succeeds with the widget HTML. -/
def renderFromJson (feedback_items : Json) : Except String String :=
  match recordsOfJson feedback_items with
  | Except.error e => Except.error e
  | Except.ok records => generate_html_widgetE records

/-- The `try` block of `handle_tools_call` (main.py lines 231-244),
parameterized by the rendering step so "any exception raised while
rendering" can be quantified over. -/
def tryBlock (render : Json → Except String String) (params : PyDict) : Except String Json := do
  let arguments := (dictGet params "arguments").getD (Json.obj [])
  let feedback_items ← pyDictGetOr arguments "feedback_items" (Json.arr [])
  let html_widget ← render feedback_items
  Except.ok (toolSuccessResult html_widget)

/-- `handle_tools_call` (main.py lines 217-252), parameterized by the
rendering step; a total function: every exception of the `try` block is
turned into a tool-level error result, none propagates. -/
def handle_tools_call_gen (render : Json → Except String String) (params : PyDict) : Json :=
  if isKnownTool (toolNameOf params) then
    match tryBlock render params with
    | Except.ok res => res
    | Except.error e => toolTextError ("Error processing feedback: " ++ e)
  else
    toolTextError ("Unknown tool: " ++ pyShowOpt (toolNameOf params))

/-- `handle_tools_call` with the repository's renderer. -/
def handle_tools_call (params : PyDict) : Json :=
  handle_tools_call_gen renderFromJson params

/-- The result of the `initialize` handler (main.py lines 254-265). -/
def initResult : Json :=
  Json.obj
    [("protocolVersion", Json.str "2024-11-05"),
     ("capabilities", Json.obj [("tools", Json.obj [])]),
     ("serverInfo", Json.obj
       [("name", Json.str "feedback-meeting-processor"),
        ("version", Json.str "1.0.0")])]

/- ============================================
   JSON-RPC envelope and endpoint (main.py lines 40-44, 271-311)
   ============================================ -/

/-- A JSON-RPC request id: `Union[int, str]` (main.py line 44). -/
inductive RpcId where
  | num : Int → RpcId
  | str : String → RpcId

/-- `JsonRpcRequest` (main.py lines 40-44) after validation. -/
structure JsonRpcRequest where
  jsonrpc : String
  method : String
  params : Option PyDict
  id : Option RpcId

/-- A protocol-level JSON-RPC error object. -/
structure RpcError where
  code : Int
  message : String

/-- The response dict the endpoint builds (main.py lines 304-311): `none`
models an absent key, so `result` and `error` are never both present. -/
structure JsonRpcResponse where
  jsonrpc : String
  id : Option RpcId
  result : Option Json
  error : Option RpcError

/-- The dispatch-and-respond part of `mcp_endpoint` (main.py lines 283-311),
on a request the envelope model accepted, parameterized by the rendering
step. -/
def mcp_dispatch_gen (render : Json → Except String String) (rpc_request : JsonRpcRequest) : JsonRpcResponse :=
  let params := rpc_request.params.getD []
  let request_id := rpc_request.id
  if rpc_request.method = "initialize" then
    { jsonrpc := "2.0", id := request_id, result := some initResult, error := none }
  else if rpc_request.method = "tools/list" then
    { jsonrpc := "2.0", id := request_id, result := some handle_tools_list, error := none }
  else if rpc_request.method = "tools/call" then
    { jsonrpc := "2.0", id := request_id,
      result := some (handle_tools_call_gen render params), error := none }
  else if rpc_request.method = "notifications/initialized" then
    { jsonrpc := "2.0", id := request_id, result := some (Json.obj []), error := none }
  else
    { jsonrpc := "2.0", id := request_id, result := none,
      error := some { code := -32601, message := "Method not found: " ++ rpc_request.method } }

/-- Dispatch with the repository's renderer. -/
def mcp_dispatch (rpc_request : JsonRpcRequest) : JsonRpcResponse :=
  mcp_dispatch_gen renderFromJson rpc_request

/-- Validation of the `params` field: absent or `null` gives the default,
a JSON object passes, anything else fails the model. -/
def parseParams : Option Json → Except String (Option PyDict)
  | none => Except.ok none
  | some Json.null => Except.ok none
  | some (Json.obj kvs) => Except.ok (some kvs)
  | some _ => Except.error "validation error: params is not a dict"

/-- Validation of the `id` field: absent or `null` gives the default, an
integer or string passes, anything else fails the model. -/
def parseId : Option Json → Except String (Option RpcId)
  | none => Except.ok none
  | some Json.null => Except.ok none
  | some (Json.num n) => Except.ok (some (RpcId.num n))
  | some (Json.str s) => Except.ok (some (RpcId.str s))
  | some _ => Except.error "validation error: id is not int or str"

/-- `JsonRpcRequest(**body)` (main.py line 283): constructing the request
model from the decoded JSON body. A non-object body or a body failing field
validation raises; nothing in `mcp_endpoint` catches that exception. -/
def parseJsonRpcRequest (body : Json) : Except String JsonRpcRequest :=
  match body with
  | Json.obj kvs => do
      let jsonrpc ← (match dictGet kvs "jsonrpc" with
        | none => Except.ok "2.0"
        | some (Json.str s) => Except.ok s
        | some _ => Except.error "validation error: jsonrpc is not a string")
      let meth ← (match dictGet kvs "method" with
        | some (Json.str s) => Except.ok s
        | some _ => Except.error "validation error: method is not a string"
        | none => Except.error "validation error: method field required")
      let params ← parseParams (dictGet kvs "params")
      let idv ← parseId (dictGet kvs "id")
      Except.ok { jsonrpc := jsonrpc, method := meth, params := params, id := idv }
  | _ => Except.error "TypeError: argument after ** must be a mapping"

/-- The body `await request.json()` yields: `malformed` when decoding raises
`json.JSONDecodeError`, else the decoded JSON value. -/
inductive RequestBody where
  | malformed : RequestBody
  | parsed : Json → RequestBody

/-- `mcp_endpoint` (main.py lines 271-311), parameterized by the rendering
step: an unparsable body gets the fixed parse-error envelope; a decoded body
is fed to the request model, whose validation exception propagates
(`Except.error`); an accepted request is dispatched. -/
def mcp_endpoint_gen (render : Json → Except String String) : RequestBody → Except String JsonRpcResponse
  | RequestBody.malformed =>
      Except.ok { jsonrpc := "2.0", id := none, result := none,
                  error := some { code := -32700, message := "Parse error" } }
  | RequestBody.parsed j =>
      (parseJsonRpcRequest j).map (mcp_dispatch_gen render)

/-- `mcp_endpoint` with the repository's renderer. -/
def mcp_endpoint (body : RequestBody) : Except String JsonRpcResponse :=
  mcp_endpoint_gen renderFromJson body

/-- Whether a JSON value matches one of the three recognized priority keys
(the membership test `priority in grouped` / `priority in counts`). -/
def isRecognized (j : Json) : Bool :=
  j.isStrEq "critical" || j.isStrEq "improvement" || j.isStrEq "nice_to_have"

/- ============================================
   Helper lemmas
   ============================================ -/

theorem isStrEq_true_iff (j : Json) (s : String) :
    j.isStrEq s = true ↔ j = Json.str s := by
  cases j <;> simp [Json.isStrEq]

theorem groupStep_critical (g : Grouped) (r : PyDict) :
    (groupStep g r).critical =
      if (effPriority r).isStrEq "critical" then g.critical ++ [r] else g.critical := by
  unfold groupStep
  cases h1 : (effPriority r).isStrEq "critical" <;>
    cases h2 : (effPriority r).isStrEq "improvement" <;>
      cases h3 : (effPriority r).isStrEq "nice_to_have" <;> simp [h1, h2, h3]

theorem groupStep_improvement (g : Grouped) (r : PyDict) :
    (groupStep g r).improvement =
      if (effPriority r).isStrEq "critical" then g.improvement
      else if (effPriority r).isStrEq "improvement" then g.improvement ++ [r]
      else g.improvement := by
  unfold groupStep
  cases h1 : (effPriority r).isStrEq "critical" <;>
    cases h2 : (effPriority r).isStrEq "improvement" <;>
      cases h3 : (effPriority r).isStrEq "nice_to_have" <;> simp [h1, h2, h3]

theorem groupStep_nice (g : Grouped) (r : PyDict) :
    (groupStep g r).nice_to_have =
      if (effPriority r).isStrEq "critical" then g.nice_to_have
      else if (effPriority r).isStrEq "improvement" then g.nice_to_have
      else if (effPriority r).isStrEq "nice_to_have" then g.nice_to_have ++ [r]
      else g.nice_to_have := by
  unfold groupStep
  cases h1 : (effPriority r).isStrEq "critical" <;>
    cases h2 : (effPriority r).isStrEq "improvement" <;>
      cases h3 : (effPriority r).isStrEq "nice_to_have" <;> simp [h1, h2, h3]

theorem isStrEq_excl {j : Json} {s t : String} (hst : s ≠ t)
    (h : j.isStrEq s = true) : j.isStrEq t = false := by
  rw [isStrEq_true_iff] at h
  subst h
  simp [Json.isStrEq]
  exact hst

theorem foldl_groupStep_critical (l : List PyDict) : ∀ g : Grouped,
    (List.foldl groupStep g l).critical =
      g.critical ++ l.filter (fun r => (effPriority r).isStrEq "critical") := by
  induction l with
  | nil => intro g; simp
  | cons r t ih =>
      intro g
      rw [List.foldl_cons, ih, groupStep_critical, List.filter_cons]
      cases h : (effPriority r).isStrEq "critical" <;> simp [h]

theorem foldl_groupStep_improvement (l : List PyDict) : ∀ g : Grouped,
    (List.foldl groupStep g l).improvement =
      g.improvement ++ l.filter (fun r => (effPriority r).isStrEq "improvement") := by
  induction l with
  | nil => intro g; simp
  | cons r t ih =>
      intro g
      rw [List.foldl_cons, ih, groupStep_improvement, List.filter_cons]
      cases h2 : (effPriority r).isStrEq "improvement"
      · cases h1 : (effPriority r).isStrEq "critical" <;> simp [h1, h2]
      · have h1 : (effPriority r).isStrEq "critical" = false :=
          isStrEq_excl (by decide) h2
        simp [h1, h2]

theorem foldl_groupStep_nice (l : List PyDict) : ∀ g : Grouped,
    (List.foldl groupStep g l).nice_to_have =
      g.nice_to_have ++ l.filter (fun r => (effPriority r).isStrEq "nice_to_have") := by
  induction l with
  | nil => intro g; simp
  | cons r t ih =>
      intro g
      rw [List.foldl_cons, ih, groupStep_nice, List.filter_cons]
      cases h3 : (effPriority r).isStrEq "nice_to_have"
      · cases h1 : (effPriority r).isStrEq "critical" <;>
          cases h2 : (effPriority r).isStrEq "improvement" <;> simp [h1, h2, h3]
      · have h1 : (effPriority r).isStrEq "critical" = false :=
          isStrEq_excl (by decide) h3
        have h2 : (effPriority r).isStrEq "improvement" = false :=
          isStrEq_excl (by decide) h3
        simp [h1, h2, h3]

theorem groupItems_critical (l : List PyDict) :
    (groupItems l).critical = l.filter (fun r => (effPriority r).isStrEq "critical") := by
  unfold groupItems
  rw [foldl_groupStep_critical]
  rfl

theorem groupItems_improvement (l : List PyDict) :
    (groupItems l).improvement = l.filter (fun r => (effPriority r).isStrEq "improvement") := by
  unfold groupItems
  rw [foldl_groupStep_improvement]
  rfl

theorem groupItems_nice (l : List PyDict) :
    (groupItems l).nice_to_have = l.filter (fun r => (effPriority r).isStrEq "nice_to_have") := by
  unfold groupItems
  rw [foldl_groupStep_nice]
  rfl

theorem countStep_critical (c : PriorityCounts) (r : PyDict) :
    (countStep c r).critical =
      if (effPriority r).isStrEq "critical" then c.critical + 1 else c.critical := by
  unfold countStep
  cases h1 : (effPriority r).isStrEq "critical" <;>
    cases h2 : (effPriority r).isStrEq "improvement" <;>
      cases h3 : (effPriority r).isStrEq "nice_to_have" <;> simp [h1, h2, h3]

theorem countStep_improvement (c : PriorityCounts) (r : PyDict) :
    (countStep c r).improvement =
      if (effPriority r).isStrEq "critical" then c.improvement
      else if (effPriority r).isStrEq "improvement" then c.improvement + 1
      else c.improvement := by
  unfold countStep
  cases h1 : (effPriority r).isStrEq "critical" <;>
    cases h2 : (effPriority r).isStrEq "improvement" <;>
      cases h3 : (effPriority r).isStrEq "nice_to_have" <;> simp [h1, h2, h3]

theorem countStep_nice (c : PriorityCounts) (r : PyDict) :
    (countStep c r).nice_to_have =
      if (effPriority r).isStrEq "critical" then c.nice_to_have
      else if (effPriority r).isStrEq "improvement" then c.nice_to_have
      else if (effPriority r).isStrEq "nice_to_have" then c.nice_to_have + 1
      else c.nice_to_have := by
  unfold countStep
  cases h1 : (effPriority r).isStrEq "critical" <;>
    cases h2 : (effPriority r).isStrEq "improvement" <;>
      cases h3 : (effPriority r).isStrEq "nice_to_have" <;> simp [h1, h2, h3]

theorem foldl_countStep_critical (l : List PyDict) : ∀ c : PriorityCounts,
    (List.foldl countStep c l).critical =
      c.critical + (l.filter (fun r => (effPriority r).isStrEq "critical")).length := by
  induction l with
  | nil => intro c; simp
  | cons r t ih =>
      intro c
      rw [List.foldl_cons, ih, countStep_critical, List.filter_cons]
      cases h : (effPriority r).isStrEq "critical"
      · simp [h]
      · simp [h]
        omega

theorem foldl_countStep_improvement (l : List PyDict) : ∀ c : PriorityCounts,
    (List.foldl countStep c l).improvement =
      c.improvement + (l.filter (fun r => (effPriority r).isStrEq "improvement")).length := by
  induction l with
  | nil => intro c; simp
  | cons r t ih =>
      intro c
      rw [List.foldl_cons, ih, countStep_improvement, List.filter_cons]
      cases h2 : (effPriority r).isStrEq "improvement"
      · cases h1 : (effPriority r).isStrEq "critical" <;> simp [h1, h2]
      · have h1 : (effPriority r).isStrEq "critical" = false :=
          isStrEq_excl (by decide) h2
        simp [h1, h2]
        omega

theorem foldl_countStep_nice (l : List PyDict) : ∀ c : PriorityCounts,
    (List.foldl countStep c l).nice_to_have =
      c.nice_to_have + (l.filter (fun r => (effPriority r).isStrEq "nice_to_have")).length := by
  induction l with
  | nil => intro c; simp
  | cons r t ih =>
      intro c
      rw [List.foldl_cons, ih, countStep_nice, List.filter_cons]
      cases h3 : (effPriority r).isStrEq "nice_to_have"
      · cases h1 : (effPriority r).isStrEq "critical" <;>
          cases h2 : (effPriority r).isStrEq "improvement" <;> simp [h1, h2, h3]
      · have h1 : (effPriority r).isStrEq "critical" = false :=
          isStrEq_excl (by decide) h3
        have h2 : (effPriority r).isStrEq "improvement" = false :=
          isStrEq_excl (by decide) h3
        simp [h1, h2, h3]
        omega

theorem restCounts_critical (l : List PyDict) :
    (restCounts l).critical = (l.filter (fun r => (effPriority r).isStrEq "critical")).length := by
  unfold restCounts
  rw [foldl_countStep_critical]
  simp

theorem restCounts_improvement (l : List PyDict) :
    (restCounts l).improvement = (l.filter (fun r => (effPriority r).isStrEq "improvement")).length := by
  unfold restCounts
  rw [foldl_countStep_improvement]
  simp

theorem restCounts_nice (l : List PyDict) :
    (restCounts l).nice_to_have = (l.filter (fun r => (effPriority r).isStrEq "nice_to_have")).length := by
  unfold restCounts
  rw [foldl_countStep_nice]
  simp

theorem json_prio_cases (j : Json) :
    j = Json.str "critical" ∨ j = Json.str "improvement" ∨ j = Json.str "nice_to_have" ∨
      (j.isStrEq "critical" = false ∧ j.isStrEq "improvement" = false ∧
        j.isStrEq "nice_to_have" = false ∧ isRecognized j = false) := by
  by_cases h1 : j.isStrEq "critical" = true
  · exact Or.inl ((isStrEq_true_iff j "critical").mp h1)
  · by_cases h2 : j.isStrEq "improvement" = true
    · exact Or.inr (Or.inl ((isStrEq_true_iff j "improvement").mp h2))
    · by_cases h3 : j.isStrEq "nice_to_have" = true
      · exact Or.inr (Or.inr (Or.inl ((isStrEq_true_iff j "nice_to_have").mp h3)))
      · refine Or.inr (Or.inr (Or.inr ?_))
        rw [Bool.not_eq_true] at h1 h2 h3
        exact ⟨h1, h2, h3, by simp [isRecognized, h1, h2, h3]⟩

theorem filter_length_sum (l : List PyDict) :
    (l.filter (fun r => (effPriority r).isStrEq "critical")).length
      + (l.filter (fun r => (effPriority r).isStrEq "improvement")).length
      + (l.filter (fun r => (effPriority r).isStrEq "nice_to_have")).length
    = (l.filter (fun r => isRecognized (effPriority r))).length := by
  induction l with
  | nil => simp
  | cons r t ih =>
      simp only [List.filter_cons]
      rcases json_prio_cases (effPriority r) with h | h | h | ⟨h1, h2, h3, h4⟩
      · have e1 : (effPriority r).isStrEq "critical" = true := by rw [h]; decide
        have e2 : (effPriority r).isStrEq "improvement" = false := by rw [h]; decide
        have e3 : (effPriority r).isStrEq "nice_to_have" = false := by rw [h]; decide
        have e4 : isRecognized (effPriority r) = true := by rw [h]; decide
        simp [e1, e2, e3, e4]
        omega
      · have e1 : (effPriority r).isStrEq "critical" = false := by rw [h]; decide
        have e2 : (effPriority r).isStrEq "improvement" = true := by rw [h]; decide
        have e3 : (effPriority r).isStrEq "nice_to_have" = false := by rw [h]; decide
        have e4 : isRecognized (effPriority r) = true := by rw [h]; decide
        simp [e1, e2, e3, e4]
        omega
      · have e1 : (effPriority r).isStrEq "critical" = false := by rw [h]; decide
        have e2 : (effPriority r).isStrEq "improvement" = false := by rw [h]; decide
        have e3 : (effPriority r).isStrEq "nice_to_have" = true := by rw [h]; decide
        have e4 : isRecognized (effPriority r) = true := by rw [h]; decide
        simp [e1, e2, e3, e4]
        omega
      · simp [h1, h2, h3, h4]
        omega

theorem effPriority_toDict (x : FeedbackItem) :
    effPriority x.toDict = Json.str x.priority.toStr := by
  obtain ⟨i, c, p, q⟩ := x
  cases p <;> rfl

theorem isRecognized_toDict (x : FeedbackItem) :
    isRecognized (effPriority x.toDict) = true := by
  obtain ⟨i, c, p, q⟩ := x
  cases p <;> rfl

theorem dictGet_mem {kvs : PyDict} {k : String} {v : Json}
    (h : dictGet kvs k = some v) : ∃ kv ∈ kvs, kv.1 = k ∧ kv.2 = v := by
  unfold dictGet at h
  rcases hf : kvs.find? (fun kv => kv.1 == k) with _ | kv
  · rw [hf] at h
    simp at h
  · rw [hf] at h
    simp at h
    refine ⟨kv, List.mem_of_find?_eq_some hf, ?_, h⟩
    have := List.find?_some hf
    simpa using this

/- ============================================
   Claim theorems
   ============================================ -/

/-- Bucket contents of the completed grouping loop: each bucket is the
order-preserving filter of the input on its key, records matching no key
land in no bucket, and the interpolated total is the sum of the three
bucket sizes. -/
theorem renderer_bucketing_facts (items : List PyDict) :
    ((groupItems items).critical
        = items.filter (fun r => (effPriority r).isStrEq "critical")
      ∧ (groupItems items).improvement
        = items.filter (fun r => (effPriority r).isStrEq "improvement")
      ∧ (groupItems items).nice_to_have
        = items.filter (fun r => (effPriority r).isStrEq "nice_to_have"))
  ∧ (∀ r ∈ items, (effPriority r).isStrEq "critical" = true →
        r ∈ (groupItems items).critical)
  ∧ (∀ r ∈ items, (effPriority r).isStrEq "improvement" = true →
        r ∈ (groupItems items).improvement)
  ∧ (∀ r ∈ items, (effPriority r).isStrEq "nice_to_have" = true →
        r ∈ (groupItems items).nice_to_have)
  ∧ (∀ r ∈ items, isRecognized (effPriority r) = false →
        r ∉ (groupItems items).critical ∧ r ∉ (groupItems items).improvement ∧
          r ∉ (groupItems items).nice_to_have)
  ∧ widgetTotal items = (groupItems items).critical.length
      + (groupItems items).improvement.length
      + (groupItems items).nice_to_have.length := by
  refine ⟨⟨groupItems_critical items, groupItems_improvement items, groupItems_nice items⟩,
    ?_, ?_, ?_, ?_, rfl⟩
  · intro r hr hp
    rw [groupItems_critical]
    exact List.mem_filter.mpr ⟨hr, hp⟩
  · intro r hr hp
    rw [groupItems_improvement]
    exact List.mem_filter.mpr ⟨hr, hp⟩
  · intro r hr hp
    rw [groupItems_nice]
    exact List.mem_filter.mpr ⟨hr, hp⟩
  · intro r _ hp
    unfold isRecognized at hp
    rcases Bool.or_eq_false_iff.mp hp with ⟨h12, h3⟩
    rcases Bool.or_eq_false_iff.mp h12 with ⟨h1, h2⟩
    refine ⟨fun hmem => ?_, fun hmem => ?_, fun hmem => ?_⟩
    · rw [groupItems_critical] at hmem
      rw [(List.mem_filter.mp hmem).2] at h1
      cases h1
    · rw [groupItems_improvement] at hmem
      rw [(List.mem_filter.mp hmem).2] at h2
      cases h2
    · rw [groupItems_nice] at hmem
      rw [(List.mem_filter.mp hmem).2] at h3
      cases h3

/-- C2: for a REST request whose items all passed the closed-enumeration
validation (`FeedbackItem`), the response's `total_items` equals the number
of items whose priority is recognized (which is all of them), and the three
per-priority counts sum to `total_items`. -/
theorem C2_rest_response_counts (request_items : List FeedbackItem) :
    (process_feedback request_items).total_items
      = ((request_items.map FeedbackItem.toDict).filter
          (fun r => isRecognized (effPriority r))).length
  ∧ (process_feedback request_items).critical_count
      + (process_feedback request_items).improvement_count
      + (process_feedback request_items).nice_to_have_count
    = (process_feedback request_items).total_items := by
  have hall : (request_items.map FeedbackItem.toDict).filter
      (fun r => isRecognized (effPriority r)) = request_items.map FeedbackItem.toDict := by
    apply List.filter_eq_self.mpr
    intro a ha
    rcases List.mem_map.mp ha with ⟨x, _, rfl⟩
    exact isRecognized_toDict x
  constructor
  · show (request_items.map FeedbackItem.toDict).length = _
    rw [hall]
  · show (restCounts (request_items.map FeedbackItem.toDict)).critical
        + (restCounts (request_items.map FeedbackItem.toDict)).improvement
        + (restCounts (request_items.map FeedbackItem.toDict)).nice_to_have
      = (request_items.map FeedbackItem.toDict).length
    rw [restCounts_critical, restCounts_improvement, restCounts_nice,
        filter_length_sum, hall]

/-- C3: the per-priority counters of the REST handler's independent counting
loop equal the sizes of the Renderer's buckets on the same input — the two
implementations use identical bucket-membership rules. -/
theorem C3_rest_counts_equal_renderer_buckets (feedback_items : List PyDict) :
    (restCounts feedback_items).critical = (groupItems feedback_items).critical.length
  ∧ (restCounts feedback_items).improvement = (groupItems feedback_items).improvement.length
  ∧ (restCounts feedback_items).nice_to_have = (groupItems feedback_items).nice_to_have.length := by
  rw [restCounts_critical, restCounts_improvement, restCounts_nice,
      groupItems_critical, groupItems_improvement, groupItems_nice]
  exact ⟨rfl, rfl, rfl⟩

/-- C9: a record with no `priority` field at all is bucketed under
nice_to_have by the Renderer (so it is counted in that badge and rendered in
that section) and counted under nice_to_have by the REST loop, rather than
excluded. -/
theorem C9_missing_priority_defaults_nice (l : List PyDict) (r : PyDict)
    (h : dictGet r "priority" = none) :
    (groupItems (l ++ [r])).nice_to_have = (groupItems l).nice_to_have ++ [r]
  ∧ (groupItems (l ++ [r])).critical = (groupItems l).critical
  ∧ (groupItems (l ++ [r])).improvement = (groupItems l).improvement
  ∧ (restCounts (l ++ [r])).nice_to_have = (restCounts l).nice_to_have + 1
  ∧ (restCounts (l ++ [r])).critical = (restCounts l).critical
  ∧ (restCounts (l ++ [r])).improvement = (restCounts l).improvement := by
  have hp : effPriority r = Json.str "nice_to_have" := by
    unfold effPriority
    rw [h]
    rfl
  have e1 : (effPriority r).isStrEq "critical" = false := by rw [hp]; decide
  have e2 : (effPriority r).isStrEq "improvement" = false := by rw [hp]; decide
  have e3 : (effPriority r).isStrEq "nice_to_have" = true := by rw [hp]; decide
  refine ⟨?_, ?_, ?_, ?_, ?_, ?_⟩ <;>
    simp [groupItems_critical, groupItems_improvement, groupItems_nice,
      restCounts_critical, restCounts_improvement, restCounts_nice,
      List.filter_append, e1, e2, e3]

/-- Witness for C9 at the concrete record `{}` (no priority field). -/
theorem C9_missing_priority_defaults_nice_witness :
    (groupItems (([] : List PyDict) ++ [([] : PyDict)])).nice_to_have
      = (groupItems ([] : List PyDict)).nice_to_have ++ [([] : PyDict)] :=
  (C9_missing_priority_defaults_nice [] [] rfl).1

/-- C4 counterexample: the empty record `{}` has every field missing, yet
the Renderer substitutes `"UI"` (with its 🎨 glyph) for the missing
`category` — not the empty string the claim states — and buckets the record
under nice_to_have via the missing priority's default. -/
theorem C4_counterexample :
    categoryText [] = "UI"
  ∧ categoryText [] ≠ ""
  ∧ categoryEmoji [] = "🎨"
  ∧ effPriority [] = Json.str "nice_to_have" := by
  refine ⟨rfl, ?_, rfl, rfl⟩
  decide

/-- C4 as amended, field by field: whichever fields are missing, the
missing ones never make the Renderer signal an error — a missing `item` or
`original_quote` is substituted by the empty string in the rendered card, a
missing `category` is substituted by the default `"UI"` (with its 🎨 glyph,
the lookup succeeding), and a missing `priority` defaults the record's
bucketing to nice_to_have (the membership test succeeding on the hashable
default string). -/
theorem C4_missing_field_defaults (r : PyDict) :
    (dictGet r "item" = none → itemText r = "")
  ∧ (dictGet r "original_quote" = none → quoteText r = "")
  ∧ (dictGet r "category" = none →
        categoryText r = "UI" ∧ categoryEmoji r = "🎨"
      ∧ categoryEmojiE r = Except.ok "🎨"
      ∧ render_cardE r = Except.ok (render_card r))
  ∧ (dictGet r "priority" = none →
        effPriority r = Json.str "nice_to_have"
      ∧ (∀ g : Grouped, groupStepE g r = Except.ok (groupStep g r))
      ∧ (∀ c : PriorityCounts, countStepE c r = Except.ok (countStep c r))) := by
  refine ⟨?_, ?_, ?_, ?_⟩
  · intro h
    unfold itemText
    rw [h]
    rfl
  · intro h
    unfold quoteText
    rw [h]
    rfl
  · intro h
    have h3 : categoryText r = "UI" := by
      unfold categoryText categoryVal
      rw [h]
      rfl
    have h4 : categoryEmoji r = "🎨" := by
      unfold categoryEmoji categoryVal
      rw [h]
      rfl
    have h5 : pyHashable (categoryVal r) = true := by
      unfold categoryVal
      rw [h]
      rfl
    exact ⟨h3, h4, by simp [categoryEmojiE, h5, h4], by simp [render_cardE, h5]⟩
  · intro h
    have h5 : effPriority r = Json.str "nice_to_have" := by
      unfold effPriority
      rw [h]
      rfl
    have h6 : pyHashable (effPriority r) = true := by
      rw [h5]
      rfl
    exact ⟨h5, fun g => by simp [groupStepE, h6], fun c => by simp [countStepE, h6]⟩

/-- C5 counterexample: the declared input contract does **not** require a
non-empty array — the body whose `feedback_items` is the empty array
satisfies the tool's input schema, so no input with an empty `feedback_items`
array refutes the contract. -/
theorem C5_counterexample :
    ¬ (∀ j : Json, inputSchemaOk j = true →
        ∃ x xs, jGet j "feedback_items" = some (Json.arr (x :: xs))) := by
  intro hclaim
  rcases hclaim (Json.obj [("feedback_items", Json.arr [])]) rfl with ⟨x, xs, hx⟩
  simp [jGet, dictGet] at hx

/-- C5 as amended: `tools/list` returns the fixed one-element catalog whose
single entry carries the tool's name, a human description, and a JSON-Schema
input contract requiring an array (possibly empty) of feedback records, each
record required to carry the four fields `item`, `category`, `priority`,
`original_quote`, with `category` and `priority` restricted to their closed
enumerations (the schema declares no `minItems`, so emptiness is allowed,
and no `additionalProperties` restriction). `inputSchemaOk`/`itemSchemaOk`
are the validation semantics of the transcribed `TOOL_DEFINITION` schema. -/
theorem C5_tools_list_catalog :
    handle_tools_list = Json.obj [("tools", Json.arr [TOOL_DEFINITION])]
  ∧ jGet TOOL_DEFINITION "name" = some (Json.str "process_meeting_feedback")
  ∧ jGet TOOL_DEFINITION "description"
      = some (Json.str "Procesa items de feedback de reuniones y los muestra agrupados por prioridad con categorías visuales")
  ∧ jPath TOOL_DEFINITION ["inputSchema", "type"] = Json.str "object"
  ∧ jPath TOOL_DEFINITION ["inputSchema", "required"] = Json.arr [Json.str "feedback_items"]
  ∧ jPath TOOL_DEFINITION ["inputSchema", "properties", "feedback_items", "type"]
      = Json.str "array"
  ∧ jGet (jPath TOOL_DEFINITION ["inputSchema", "properties", "feedback_items"]) "minItems"
      = none
  ∧ jPath TOOL_DEFINITION ["inputSchema", "properties", "feedback_items", "items", "required"]
      = Json.arr (requiredItemFields.map Json.str)
  ∧ jPath TOOL_DEFINITION
        ["inputSchema", "properties", "feedback_items", "items", "properties", "category", "enum"]
      = Json.arr (categoryEnum.map Json.str)
  ∧ jPath TOOL_DEFINITION
        ["inputSchema", "properties", "feedback_items", "items", "properties", "priority", "enum"]
      = Json.arr (priorityEnum.map Json.str)
  ∧ inputSchemaOk (Json.obj [("feedback_items", Json.arr [])]) = true
  ∧ (∀ kvs xs, inputSchemaOk (Json.obj kvs) = true →
        dictGet kvs "feedback_items" = some (Json.arr xs) →
          ∀ x ∈ xs, itemSchemaOk x = true)
  ∧ (∀ kvs, itemSchemaOk (Json.obj kvs) = true →
        (∀ k ∈ requiredItemFields, (dictGet kvs k).isSome = true)
      ∧ (∀ v, dictGet kvs "category" = some v → isStrIn v categoryEnum = true)
      ∧ (∀ v, dictGet kvs "priority" = some v → isStrIn v priorityEnum = true)
      ∧ (∀ v, dictGet kvs "item" = some v → isStrJson v = true)
      ∧ (∀ v, dictGet kvs "original_quote" = some v → isStrJson v = true)) := by
  refine ⟨rfl, rfl, rfl, rfl, rfl, rfl, rfl, rfl, rfl, rfl, rfl, ?_, ?_⟩
  · intro kvs xs h hfi
    simp only [inputSchemaOk] at h
    rw [hfi] at h
    exact fun x hx => List.all_eq_true.mp h x hx
  · intro kvs h
    simp only [itemSchemaOk, Bool.and_eq_true] at h
    obtain ⟨hreq, hfields⟩ := h
    have field_ok : ∀ {k : String} {v : Json}, dictGet kvs k = some v →
        itemFieldOk k v = true := by
      intro k v hv
      rcases dictGet_mem hv with ⟨kv, hmem, hk, hv2⟩
      have := List.all_eq_true.mp hfields kv hmem
      rw [hk, hv2] at this
      exact this
    refine ⟨fun k hk => ?_, fun v hv => ?_, fun v hv => ?_, fun v hv => ?_, fun v hv => ?_⟩
    · have := List.all_eq_true.mp hreq k hk
      simpa using this
    · have h' := field_ok hv
      have hred : itemFieldOk "category" v = isStrIn v categoryEnum := rfl
      rw [hred] at h'
      exact h'
    · have h' := field_ok hv
      have hred : itemFieldOk "priority" v = isStrIn v priorityEnum := rfl
      rw [hred] at h'
      exact h'
    · have h' := field_ok hv
      have hred : itemFieldOk "item" v = isStrJson v := rfl
      rw [hred] at h'
      exact h'
    · have h' := field_ok hv
      have hred : itemFieldOk "original_quote" v = isStrJson v := rfl
      rw [hred] at h'
      exact h'

/-- C6: for params naming the known tool, any exception raised inside the
`try` block of `tools/call` (rendering included — quantified over the
rendering step) is caught and converted into a tool-level error result with
`isError = true` and a textual message; `handle_tools_call_gen` is a total
function, so nothing propagates, and the dispatcher wraps the result in an
envelope with no protocol-level error. -/
theorem C6_render_exception_contained (render : Json → Except String String)
    (params : PyDict) (e : String)
    (hname : isKnownTool (toolNameOf params) = true)
    (hfail : tryBlock render params = Except.error e) :
    handle_tools_call_gen render params
      = toolTextError ("Error processing feedback: " ++ e)
  ∧ jGet (handle_tools_call_gen render params) "isError" = some (Json.bool true)
  ∧ jGet (handle_tools_call_gen render params) "content"
      = some (Json.arr [Json.obj [("type", Json.str "text"),
          ("text", Json.str ("Error processing feedback: " ++ e))]])
  ∧ (∀ req : JsonRpcRequest, req.method = "tools/call" → req.params = some params →
        (mcp_dispatch_gen render req).error = none
      ∧ (mcp_dispatch_gen render req).result
          = some (toolTextError ("Error processing feedback: " ++ e))) := by
  have hmain : handle_tools_call_gen render params
      = toolTextError ("Error processing feedback: " ++ e) := by
    unfold handle_tools_call_gen
    rw [hname, hfail]
    simp
  refine ⟨hmain, by rw [hmain]; rfl, by rw [hmain]; rfl, ?_⟩
  intro req h1 h2
  unfold mcp_dispatch_gen
  rw [h1, h2]
  constructor <;> simp [hmain]

/-- Witness for C6: a rendering step that raises is converted to the
tool-level error result. -/
theorem C6_render_exception_contained_witness :
    handle_tools_call_gen (fun _ => Except.error "boom")
        [("name", Json.str "process_meeting_feedback")]
      = toolTextError ("Error processing feedback: " ++ "boom") :=
  (C6_render_exception_contained (fun _ => Except.error "boom")
    [("name", Json.str "process_meeting_feedback")] "boom" rfl rfl).1

/-- C7: a `tools/call` request whose params do not name the known tool gets
a successful JSON-RPC envelope whose result has `isError = true` and a
textual message identifying the unknown tool; the envelope carries no
protocol-level error, and the request's id is echoed. -/
theorem C7_unknown_tool_result (req : JsonRpcRequest)
    (hm : req.method = "tools/call")
    (hn : isKnownTool (toolNameOf (req.params.getD [])) = false) :
    mcp_dispatch req =
      { jsonrpc := "2.0", id := req.id,
        result := some (toolTextError
          ("Unknown tool: " ++ pyShowOpt (toolNameOf (req.params.getD [])))),
        error := none }
  ∧ jGet (toolTextError ("Unknown tool: " ++ pyShowOpt (toolNameOf (req.params.getD []))))
      "isError" = some (Json.bool true)
  ∧ (mcp_dispatch req).error = none
  ∧ (mcp_dispatch req).id = req.id := by
  have hcall : handle_tools_call_gen renderFromJson (req.params.getD [])
      = toolTextError ("Unknown tool: " ++ pyShowOpt (toolNameOf (req.params.getD []))) := by
    unfold handle_tools_call_gen
    rw [hn]
    simp
  have hmain : mcp_dispatch req =
      { jsonrpc := "2.0", id := req.id,
        result := some (toolTextError
          ("Unknown tool: " ++ pyShowOpt (toolNameOf (req.params.getD [])))),
        error := none } := by
    unfold mcp_dispatch mcp_dispatch_gen
    rw [hm]
    simp [hcall]
  exact ⟨hmain, rfl, by rw [hmain], by rw [hmain]⟩

/-- Witness for C7: `tools/call` with name `nonexistent_tool` and id 1. -/
theorem C7_unknown_tool_result_witness :
    mcp_dispatch
        ⟨"2.0", "tools/call", some [("name", Json.str "nonexistent_tool")], some (RpcId.num 1)⟩ =
      { jsonrpc := "2.0", id := some (RpcId.num 1),
        result := some (toolTextError
          ("Unknown tool: " ++ pyShowOpt (toolNameOf
            ((some [("name", Json.str "nonexistent_tool")] : Option PyDict).getD [])))),
        error := none } :=
  (C7_unknown_tool_result
    ⟨"2.0", "tools/call", some [("name", Json.str "nonexistent_tool")], some (RpcId.num 1)⟩
    rfl rfl).1

/-- C8: a well-formed request whose method is none of the four recognized
ones gets an envelope with protocol-level error code -32601 and a message
naming the offending method, and no result field. -/
theorem C8_unknown_method_error (req : JsonRpcRequest)
    (h1 : req.method ≠ "initialize")
    (h2 : req.method ≠ "tools/list")
    (h3 : req.method ≠ "tools/call")
    (h4 : req.method ≠ "notifications/initialized") :
    mcp_dispatch req =
      { jsonrpc := "2.0", id := req.id, result := none,
        error := some { code := -32601, message := "Method not found: " ++ req.method } }
  ∧ (mcp_dispatch req).result = none
  ∧ (mcp_dispatch req).error
      = some { code := -32601, message := "Method not found: " ++ req.method } := by
  have hmain : mcp_dispatch req =
      { jsonrpc := "2.0", id := req.id, result := none,
        error := some { code := -32601, message := "Method not found: " ++ req.method } } := by
    unfold mcp_dispatch mcp_dispatch_gen
    rw [if_neg h1, if_neg h2, if_neg h3, if_neg h4]
  exact ⟨hmain, by rw [hmain], by rw [hmain]⟩

/-- Witness for C8 at the concrete unknown method `foo/bar`. -/
theorem C8_unknown_method_error_witness :
    mcp_dispatch ⟨"2.0", "foo/bar", none, some (RpcId.str "a")⟩ =
      { jsonrpc := "2.0", id := some (RpcId.str "a"), result := none,
        error := some { code := -32601, message := "Method not found: " ++ "foo/bar" } } :=
  (C8_unknown_method_error ⟨"2.0", "foo/bar", none, some (RpcId.str "a")⟩
    (by decide) (by decide) (by decide) (by decide)).1

/-- C10: a body that decodes as JSON but fails the request-envelope model's
validation (for example an object lacking `method`, or a non-object value)
makes the endpoint raise the construction exception — no JSON-RPC response
envelope, neither result nor error object, is produced. -/
theorem C10_invalid_envelope_raises (j : Json) (e : String)
    (h : parseJsonRpcRequest j = Except.error e) :
    mcp_endpoint (RequestBody.parsed j) = Except.error e := by
  show Except.map (mcp_dispatch_gen renderFromJson) (parseJsonRpcRequest j) = Except.error e
  rw [h]
  rfl

/-- Witness for C10 at the concrete body `{}` (valid JSON, no `method`). -/
theorem C10_invalid_envelope_raises_witness :
    mcp_endpoint (RequestBody.parsed (Json.obj []))
      = Except.error "validation error: method field required" :=
  C10_invalid_envelope_raises (Json.obj [])
    "validation error: method field required" rfl

theorem groupStepE_ok {item : PyDict} (g : Grouped)
    (h : pyHashable (effPriority item) = true) :
    groupStepE g item = Except.ok (groupStep g item) := by
  simp [groupStepE, h]

theorem foldlM_groupStepE_ok (l : List PyDict) : ∀ g : Grouped,
    (∀ r ∈ l, pyHashable (effPriority r) = true) →
    List.foldlM groupStepE g l = Except.ok (List.foldl groupStep g l) := by
  induction l with
  | nil => intro g _; rfl
  | cons r t ih =>
      intro g h
      rw [List.foldlM_cons, groupStepE_ok g (h r (List.mem_cons_self r t))]
      show List.foldlM groupStepE (groupStep g r) t = _
      rw [ih (groupStep g r) (fun x hx => h x (List.mem_cons_of_mem r hx))]
      rfl

theorem groupItemsE_ok (l : List PyDict)
    (h : ∀ r ∈ l, pyHashable (effPriority r) = true) :
    groupItemsE l = Except.ok (groupItems l) :=
  foldlM_groupStepE_ok l ⟨[], [], []⟩ h

theorem foldlM_groupStepE_err (l : List PyDict) : ∀ g : Grouped,
    (∃ r ∈ l, pyHashable (effPriority r) = false) →
    ∃ e, List.foldlM groupStepE g l = Except.error e := by
  induction l with
  | nil =>
      intro g h
      rcases h with ⟨r, hr, _⟩
      simp at hr
  | cons r t ih =>
      intro g h
      cases hb : pyHashable (effPriority r)
      · refine ⟨"TypeError: unhashable type", ?_⟩
        rw [List.foldlM_cons]
        show (groupStepE g r >>= fun g2 => List.foldlM groupStepE g2 t) = _
        unfold groupStepE
        rw [hb]
        rfl
      · rcases h with ⟨x, hx, hxf⟩
        rcases List.mem_cons.mp hx with hxr | hx2
        · rw [hxr, hb] at hxf
          cases hxf
        · rcases ih (groupStep g r) ⟨x, hx2, hxf⟩ with ⟨e, he⟩
          refine ⟨e, ?_⟩
          rw [List.foldlM_cons, groupStepE_ok g hb]
          show List.foldlM groupStepE (groupStep g r) t = _
          exact he

theorem mapM_render_cardE_ok (items : List PyDict)
    (h : ∀ r ∈ items, pyHashable (categoryVal r) = true) :
    items.mapM render_cardE = Except.ok (items.map render_card) := by
  induction items with
  | nil => rfl
  | cons r t ih =>
      have hr : render_cardE r = Except.ok (render_card r) := by
        simp [render_cardE, h r (List.mem_cons_self r t)]
      rw [List.mapM_cons, hr]
      show (t.mapM render_cardE >>= fun bs => pure (render_card r :: bs)) = _
      rw [ih (fun x hx => h x (List.mem_cons_of_mem r hx))]
      rfl

theorem render_itemsE_ok (items : List PyDict)
    (h : ∀ r ∈ items, pyHashable (categoryVal r) = true) :
    render_itemsE items = Except.ok (render_items items) := by
  unfold render_itemsE render_items
  cases he : items.isEmpty
  · rw [mapM_render_cardE_ok items h]
    simp [he]
    rfl
  · simp [he]

theorem generate_html_widgetE_ok (items : List PyDict)
    (hprio : ∀ r ∈ items, pyHashable (effPriority r) = true)
    (hcat : ∀ r ∈ items, pyHashable (categoryVal r) = true) :
    generate_html_widgetE items = Except.ok (generate_html_widget items) := by
  have hc : ∀ r ∈ (groupItems items).critical, pyHashable (categoryVal r) = true := by
    intro r hr
    rw [groupItems_critical] at hr
    exact hcat r (List.mem_filter.mp hr).1
  have hi : ∀ r ∈ (groupItems items).improvement, pyHashable (categoryVal r) = true := by
    intro r hr
    rw [groupItems_improvement] at hr
    exact hcat r (List.mem_filter.mp hr).1
  have hn : ∀ r ∈ (groupItems items).nice_to_have, pyHashable (categoryVal r) = true := by
    intro r hr
    rw [groupItems_nice] at hr
    exact hcat r (List.mem_filter.mp hr).1
  unfold generate_html_widgetE
  simp only [groupItemsE_ok items hprio, render_itemsE_ok _ hc, render_itemsE_ok _ hi,
    render_itemsE_ok _ hn]

theorem generate_html_widgetE_err (l : List PyDict) (rbad : PyDict)
    (hmem : rbad ∈ l) (hbad : pyHashable (effPriority rbad) = false) :
    ∃ e, generate_html_widgetE l = Except.error e := by
  rcases foldlM_groupStepE_err l ⟨[], [], []⟩ ⟨rbad, hmem, hbad⟩ with ⟨e, he⟩
  refine ⟨e, ?_⟩
  unfold generate_html_widgetE groupItemsE
  rw [he]

/-- C1 counterexample: a record whose priority is the (unhashable) empty
list makes the membership test `priority in grouped` raise `TypeError`, so
the Renderer produces no output at all — the record is not silently
excluded with a total shown — and through `tools/call` the rendering abort
surfaces as the tool-level error result rather than a rendered widget. -/
theorem C1_counterexample :
    generate_html_widgetE [[("priority", Json.arr [])]]
      = Except.error "TypeError: unhashable type"
  ∧ handle_tools_call
      [("name", Json.str "process_meeting_feedback"),
       ("arguments", Json.obj
         [("feedback_items", Json.arr [Json.obj [("priority", Json.arr [])]])])]
      = toolTextError ("Error processing feedback: " ++ "TypeError: unhashable type") :=
  ⟨rfl, rfl⟩

/-- C1 as amended: on every input sequence whose priority and category
values are all hashable (in particular any sequence of records with string
or absent fields), the Renderer succeeds and places each record whose
priority equals one of the three keys into that bucket (each bucket the
order-preserving filter on its key), excludes every record whose priority
matches none of the three keys from all buckets, and the total equals the
sum of the three bucket sizes; a record with an unhashable (list or dict)
priority value instead makes the Renderer raise `TypeError` from the
membership test and produce no output. -/
theorem C1_renderer_bucketing_hashable (items : List PyDict)
    (hprio : items.all (fun r => pyHashable (effPriority r)) = true)
    (hcat : items.all (fun r => pyHashable (categoryVal r)) = true) :
    groupItemsE items = Except.ok (groupItems items)
  ∧ generate_html_widgetE items = Except.ok (generate_html_widget items)
  ∧ ((groupItems items).critical
        = items.filter (fun r => (effPriority r).isStrEq "critical")
      ∧ (groupItems items).improvement
        = items.filter (fun r => (effPriority r).isStrEq "improvement")
      ∧ (groupItems items).nice_to_have
        = items.filter (fun r => (effPriority r).isStrEq "nice_to_have"))
  ∧ (∀ r ∈ items, (effPriority r).isStrEq "critical" = true →
        r ∈ (groupItems items).critical)
  ∧ (∀ r ∈ items, (effPriority r).isStrEq "improvement" = true →
        r ∈ (groupItems items).improvement)
  ∧ (∀ r ∈ items, (effPriority r).isStrEq "nice_to_have" = true →
        r ∈ (groupItems items).nice_to_have)
  ∧ (∀ r ∈ items, isRecognized (effPriority r) = false →
        r ∉ (groupItems items).critical ∧ r ∉ (groupItems items).improvement ∧
          r ∉ (groupItems items).nice_to_have)
  ∧ widgetTotal items = (groupItems items).critical.length
      + (groupItems items).improvement.length
      + (groupItems items).nice_to_have.length
  ∧ (∀ (l : List PyDict) (rbad : PyDict), rbad ∈ l →
        pyHashable (effPriority rbad) = false →
          ∃ e, generate_html_widgetE l = Except.error e) := by
  have hprio2 := List.all_eq_true.mp hprio
  have hcat2 := List.all_eq_true.mp hcat
  rcases renderer_bucketing_facts items with ⟨hfilters, hmc, hmi, hmn, hexcl, htot⟩
  exact ⟨groupItemsE_ok items hprio2,
    generate_html_widgetE_ok items hprio2 hcat2,
    hfilters, hmc, hmi, hmn, hexcl, htot,
    fun l rbad hmem hbad => generate_html_widgetE_err l rbad hmem hbad⟩

/-- Witness for C1's amended theorem: two records with hashable string
priorities, one unrecognized (dropped) and one critical (bucketed). -/
theorem C1_renderer_bucketing_hashable_witness :
    groupItemsE [[("priority", Json.str "high")], [("priority", Json.str "critical")]]
      = Except.ok (groupItems [[("priority", Json.str "high")], [("priority", Json.str "critical")]]) :=
  (C1_renderer_bucketing_hashable
    [[("priority", Json.str "high")], [("priority", Json.str "critical")]] rfl rfl).1
